import Mathlib

/-!
Shallow embedding of the AutoOps remediation agent (src/agent.py) and
verification of the claims about its specification.

Conventions of the embedding:
* Python floats are modelled as exact numbers: rationals where the code only
  adds, multiplies, divides and compares, and reals where math.sqrt enters.
* Python dicts with a fixed key set become structures; the params dict of a
  workflow step becomes an association list from string keys to values.
* Outbound HTTP calls and file-system effects of one cycle are abstracted by
  a World record fixing the outcome of each such operation, and persistence
  operations are recorded in an Effect trace.
* A Python function that can raise an exception is embedded as Except String,
  the error string standing for the exception.
-/

/-- ASCII lower-casing of one character, as Python str.lower acts on the
ASCII strings used for event levels. -/
def lowerChar (c : Char) : Char :=
  if c.toNat ≥ 65 && c.toNat ≤ 90 then Char.ofNat (c.toNat + 32) else c

/-- Python str.lower restricted to ASCII strings. -/
def pyLower (s : String) : String := String.mk (s.data.map lowerChar)

/-- Values stored in a step params dict: numbers or strings. -/
inductive PValue where
  | num (n : ℤ)
  | str (s : String)
deriving DecidableEq

/-- Pydantic model LogEvent (agent.py lines 126-132). The metric field is a
dict of numeric metrics; it has a default value of the empty dict, so the
window entries produced by event.dict() always carry the "metric" key and
the field is total here. -/
structure LogEvent where
  service : String
  timestamp : ℚ
  metric : List (String × ℚ)
  message : String
  level : String
  state : String
deriving DecidableEq

/-- The in-memory metrics store METRICS (agent.py lines 18-22). -/
structure Metrics where
  window : List LogEvent
  error_count : ℕ
  total_count : ℕ
deriving DecidableEq

/-- Initial METRICS value: empty window, zero counters. -/
def initMetrics : Metrics := ⟨[], 0, 0⟩

/-- The error test of /ingest_log (agent.py line 139):
event.level.lower() == "error" or event.state == "crashed". -/
def ingestError (e : LogEvent) : Bool :=
  pyLower e.level == "error" || e.state == "crashed"

/-- Endpoint /ingest_log (agent.py lines 134-144): append the event, always
bump total_count, bump error_count on the error test, then drop the oldest
entry when the window exceeds 30 entries. -/
def ingest_log (m : Metrics) (e : LogEvent) : Metrics :=
  if (m.window ++ [e]).length > 30 then
    ⟨(m.window ++ [e]).tail,
      if ingestError e then m.error_count + 1 else m.error_count,
      m.total_count + 1⟩
  else
    ⟨m.window ++ [e],
      if ingestError e then m.error_count + 1 else m.error_count,
      m.total_count + 1⟩

lemma ingest_log_total (m : Metrics) (e : LogEvent) :
    (ingest_log m e).total_count = m.total_count + 1 := by
  unfold ingest_log
  split <;> rfl

lemma ingest_log_error (m : Metrics) (e : LogEvent) :
    (ingest_log m e).error_count
      = m.error_count + (if ingestError e then 1 else 0) := by
  unfold ingest_log
  split <;> split <;> simp

lemma ingest_log_window (m : Metrics) (e : LogEvent) (h : m.window.length ≤ 30) :
    (ingest_log m e).window
      = (m.window ++ [e]).drop ((m.window ++ [e]).length - 30) := by
  unfold ingest_log
  by_cases hgt : (m.window ++ [e]).length > 30
  · rw [if_pos hgt]
    have h31 : (m.window ++ [e]).length = 31 := by
      simp only [List.length_append, List.length_singleton] at hgt ⊢
      omega
    rw [h31]
    have h1 : (31 : ℕ) - 30 = 1 := rfl
    rw [h1, List.drop_one]
  · rw [if_neg hgt]
    have h0 : (m.window ++ [e]).length - 30 = 0 := by omega
    rw [h0, List.drop_zero]

lemma ingest_log_window_le (m : Metrics) (e : LogEvent) (h : m.window.length ≤ 30) :
    (ingest_log m e).window.length ≤ 30 := by
  rw [ingest_log_window m e h]
  simp only [List.length_drop, List.length_append, List.length_singleton]
  omega

lemma foldl_ingest_total (es : List LogEvent) (m : Metrics) :
    (es.foldl ingest_log m).total_count = m.total_count + es.length := by
  induction es generalizing m with
  | nil => simp
  | cons e es ih =>
    simp only [List.foldl_cons, List.length_cons, ih, ingest_log_total]
    omega

lemma foldl_ingest_error (es : List LogEvent) (m : Metrics) :
    (es.foldl ingest_log m).error_count = m.error_count + es.countP ingestError := by
  induction es generalizing m with
  | nil => simp
  | cons e es ih =>
    simp only [List.foldl_cons, List.countP_cons, ih, ingest_log_error]
    split <;> omega

lemma foldl_ingest_window (es : List LogEvent) (m : Metrics)
    (h : m.window.length ≤ 30) :
    (es.foldl ingest_log m).window
      = (m.window ++ es).drop ((m.window ++ es).length - 30) := by
  induction es generalizing m with
  | nil =>
    rw [List.foldl_nil, List.append_nil]
    have h0 : m.window.length - 30 = 0 := by omega
    rw [h0, List.drop_zero]
  | cons e es ih =>
    have hle := ingest_log_window_le m e h
    have hw := ingest_log_window m e h
    have hdle : (m.window ++ [e]).length - 30 ≤ (m.window ++ [e]).length :=
      Nat.sub_le _ _
    rw [List.foldl_cons, ih (ingest_log m e) hle, hw,
      ← List.drop_append_of_le_length hdle, List.drop_drop]
    have h1 : (m.window ++ [e]) ++ es = m.window ++ e :: es := by simp
    rw [h1]
    congr 1
    simp only [List.length_drop, List.length_append, List.length_cons,
      List.length_nil]
    omega

/-- The latency series of analyze_metrics (agent.py line 44):
latencies = [w.get("metric", \x7b\x7d).get("latency_ms", 0) for w in window
if "metric" in w]. The guard "metric" in w holds for every window entry,
because entries are produced by event.dict() and the LogEvent model gives
the metric field a default; an entry whose metric dict lacks the
"latency_ms" key contributes the dict-get default 0. -/
def latencies (window : List LogEvent) : List ℚ :=
  window.map (fun w => (w.metric.lookup "latency_ms").getD 0)

/-- The error flag series of analyze_metrics (agent.py line 45):
1 if w.get("state") == "crashed" or w.get("level") == "error" else 0. -/
def error_flags (window : List LogEvent) : List ℕ :=
  window.map (fun w => if w.state == "crashed" || w.level == "error" then 1 else 0)

/-- Population mean, agent.py line 48: sum(latencies)/len(latencies). -/
def listMean (l : List ℚ) : ℚ := l.sum / l.length

/-- Population variance, agent.py line 49. -/
def listVar (l : List ℚ) : ℚ := (l.map (fun x => (x - listMean l) ^ 2)).sum / l.length

/-- Standard deviation, agent.py line 50: math.sqrt(var), modelled over ℝ. -/
noncomputable def listStd (l : List ℚ) : ℝ := Real.sqrt ((listVar l : ℚ) : ℝ)

/-- The z statistic, agent.py lines 51-52: z = (latest - mean)/(std + 1e-6),
with latest = latencies[-1]; the getLastD default is never exercised because
the caller guards on a nonempty series. -/
noncomputable def zScore (l : List ℚ) : ℝ :=
  (((l.getLastD 0 : ℚ) : ℝ) - ((listMean l : ℚ) : ℝ)) / (listStd l + 1 / 1000000)

/-- The error rate, agent.py line 53: sum(error_flags)/len(error_flags);
its denominator is the number of all window entries. -/
def error_rate (window : List LogEvent) : ℚ :=
  ((error_flags window).sum : ℚ) / ((error_flags window).length : ℚ)

/-- The analysis dict returned by analyze_metrics: the degenerate verdict
carries only the anomaly flag, the full verdict carries every statistic. -/
structure Analysis where
  anomaly : Bool
  z : Option ℝ
  error_rate : Option ℚ
  latest_latency : Option ℚ
  mean : Option ℚ
  std : Option ℝ

/-- analyze_metrics (agent.py lines 42-55). On an empty latency series it
returns the degenerate verdict; otherwise the anomaly flag is
(z > 2.0) or (error_rate > 0.15), with both thresholds literal constants
(the function takes no workflow input, so the flag is independent of any
latency_threshold_ms parameter). -/
noncomputable def analyze_metrics (window : List LogEvent) : Analysis :=
  if latencies window = [] then ⟨false, none, none, none, none, none⟩
  else
    ⟨if (2 : ℝ) < zScore (latencies window) ∨ (3 / 20 : ℚ) < error_rate window
        then true else false,
      some (zScore (latencies window)),
      some (error_rate window),
      some ((latencies window).getLastD 0),
      some (listMean (latencies window)),
      some (listStd (latencies window))⟩

/-- root_cause_reasoning (agent.py lines 58-63). Python reads
analysis["error_rate"] first and analysis["z"] second; a missing key raises
KeyError, embedded as the error branch. -/
noncomputable def root_cause_reasoning (analysis : Analysis) : Except String String :=
  match analysis.error_rate with
  | none => Except.error "KeyError: error_rate"
  | some er =>
    if (3 / 20 : ℚ) < er then Except.ok "service_crash_or_high_error_rate"
    else
      match analysis.z with
      | none => Except.error "KeyError: z"
      | some z => if (2 : ℝ) < z then Except.ok "latency_spike" else Except.ok "unknown"

/-- Spec-side latency series for the refinement comparison of C1, following
the spec words: only events that carry a latency_ms metric enter the
series, all other events are excluded from it. -/
def latencies_spec (window : List LogEvent) : List ℚ :=
  window.filterMap (fun w => w.metric.lookup "latency_ms")

/-- A normal event with a latency_ms metric, as sent by log_emitter.py. -/
def evLat (q : ℚ) : LogEvent :=
  ⟨"sim-service", 0, [("latency_ms", q)], "synthetic", "info", "ok"⟩

/-- An event whose metric dict carries no latency_ms key (for example a
cpu-only heartbeat); the metric key itself is present. -/
def evNoLat : LogEvent :=
  ⟨"sim-service", 0, [("cpu", 21)], "heartbeat", "info", "ok"⟩

/-- An error-level event with a latency_ms metric. -/
def evErrLat (q : ℚ) : LogEvent :=
  ⟨"sim-service", 0, [("latency_ms", q)], "synthetic", "error", "ok"⟩

/-- A five-event window of constant latency 100 whose last event has level
error: the error rate is 1/5 > 0.15, the variance is 0, the z statistic 0. -/
def win5 : List LogEvent :=
  [evLat 100, evLat 100, evLat 100, evLat 100, evErrLat 100]

lemma latencies_win5 : latencies win5 = [100, 100, 100, 100, 100] := rfl

lemma error_flags_win5 : error_flags win5 = [0, 0, 0, 0, 1] := rfl

lemma error_rate_win5 : error_rate win5 = 1 / 5 := by
  rw [error_rate, error_flags_win5]
  norm_num

lemma listMean_win5 : listMean (latencies win5) = 100 := by
  rw [latencies_win5, listMean]
  norm_num

lemma listVar_win5 : listVar (latencies win5) = 0 := by
  have hm := listMean_win5
  rw [latencies_win5] at hm
  rw [latencies_win5, listVar, hm]
  norm_num

lemma listStd_win5 : listStd (latencies win5) = 0 := by
  rw [listStd, listVar_win5]
  norm_num

lemma zScore_win5 : zScore (latencies win5) = 0 := by
  have hl : (latencies win5).getLastD 0 = 100 := by rw [latencies_win5]; rfl
  rw [zScore, hl, listMean_win5]
  simp

lemma analyze_win5 :
    analyze_metrics win5 = ⟨true, some 0, some (1 / 5), some 100, some 100, some 0⟩ := by
  have hne : latencies win5 ≠ [] := by rw [latencies_win5]; simp
  have hC : ((2 : ℝ) < zScore (latencies win5) ∨ (3 / 20 : ℚ) < error_rate win5) :=
    Or.inr (by rw [error_rate_win5]; norm_num)
  have hl : (latencies win5).getLastD 0 = 100 := by rw [latencies_win5]; rfl
  unfold analyze_metrics
  rw [if_neg hne, if_pos hC, zScore_win5, error_rate_win5, hl, listMean_win5,
    listStd_win5]

/-- C1: counterexample. In a two-event window whose second event carries a
metric dict without the latency_ms key, the detector latency series is
[100, 0], not the spec series [100]: the event does contribute a value (the
default 0) and does change the mean (50 instead of 100). -/
theorem c1_counterexample :
    latencies [evLat 100, evNoLat] = [100, 0]
    ∧ latencies_spec [evLat 100, evNoLat] = [100]
    ∧ listMean (latencies [evLat 100, evNoLat]) = 50
    ∧ listMean (latencies_spec [evLat 100, evNoLat]) = 100
    ∧ latencies [evLat 100, evNoLat] ≠ latencies_spec [evLat 100, evNoLat] := by
  have h1 : latencies [evLat 100, evNoLat] = [100, 0] := rfl
  have h2 : latencies_spec [evLat 100, evNoLat] = [100] := rfl
  refine ⟨h1, h2, ?_, ?_, ?_⟩
  · rw [h1, listMean]
    norm_num
  · rw [h2, listMean]
    norm_num
  · rw [h1, h2]
    simp

/-- C1 (amended): the latency series takes one entry from every window
event; an event whose metric dict lacks the latency_ms key contributes the
default value 0 to the series (so it does affect the mean, standard
deviation and latest-latency terms), while it also counts toward the
error-rate denominator. -/
theorem c1_amended (window : List LogEvent) (e : LogEvent)
    (h : e.metric.lookup "latency_ms" = none) :
    latencies (window ++ [e]) = latencies window ++ [0]
    ∧ (error_flags (window ++ [e])).length = window.length + 1 := by
  constructor
  · simp [latencies, h]
  · simp [error_flags]

/-- C1 (amended) witness at the cpu-only heartbeat event. -/
theorem c1_amended_witness :
    latencies ([] ++ [evNoLat]) = latencies [] ++ [0]
    ∧ (error_flags ([] ++ [evNoLat])).length = List.length ([] : List LogEvent) + 1 :=
  c1_amended [] evNoLat rfl

/-- C3: counterexample. The degenerate empty-latency-series verdict carries
only the anomaly flag, and classifying it raises KeyError on the missing
error_rate key instead of returning a label. -/
theorem c3_counterexample :
    analyze_metrics [] = ⟨false, none, none, none, none, none⟩
    ∧ root_cause_reasoning (analyze_metrics []) = Except.error "KeyError: error_rate" :=
  ⟨rfl, rfl⟩

/-- C3 (amended): the classifier is total on every verdict built from a
nonempty latency series (in particular on every anomalous verdict, the only
ones the orchestrator classifies); on the degenerate verdict it raises
KeyError. -/
theorem c3_amended (window : List LogEvent) (h : latencies window ≠ []) :
    ∃ label, root_cause_reasoning (analyze_metrics window) = Except.ok label := by
  unfold analyze_metrics
  rw [if_neg h]
  by_cases h1 : (3 / 20 : ℚ) < error_rate window
  · exact ⟨"service_crash_or_high_error_rate", by simp [root_cause_reasoning, h1]⟩
  · by_cases h2 : (2 : ℝ) < zScore (latencies window)
    · exact ⟨"latency_spike", by simp [root_cause_reasoning, h1, h2]⟩
    · exact ⟨"unknown", by simp [root_cause_reasoning, h1, h2]⟩

/-- C3 (amended) witness at a one-event window. -/
theorem c3_amended_witness :
    ∃ label, root_cause_reasoning (analyze_metrics [evLat 100]) = Except.ok label :=
  c3_amended [evLat 100] (by
    have h0 : latencies [evLat 100] = [100] := rfl
    rw [h0]
    simp)

/-- C8: the detector flags a verdict anomalous exactly when its z field
exceeds the constant 2.0 or its error_rate field exceeds the constant 0.15
(analyze_metrics consumes no workflow input, so both thresholds are
independent of any latency_threshold_ms parameter), and the classifier is
first-match-wins in that priority order: error rate above 0.15 yields
service_crash_or_high_error_rate regardless of z, otherwise z above 2.0
yields latency_spike, otherwise unknown. -/
theorem c8_thresholds_and_priority :
    (∀ window : List LogEvent,
      (analyze_metrics window).anomaly = true
        ↔ ((∃ z : ℝ, (analyze_metrics window).z = some z ∧ 2 < z)
            ∨ (∃ er : ℚ, (analyze_metrics window).error_rate = some er ∧ 3 / 20 < er)))
    ∧ (∀ (a : Analysis) (er : ℚ), a.error_rate = some er →
        ((3 / 20 < er → root_cause_reasoning a = Except.ok "service_crash_or_high_error_rate")
         ∧ (∀ z : ℝ, a.z = some z → ¬ 3 / 20 < er →
             ((2 < z → root_cause_reasoning a = Except.ok "latency_spike")
              ∧ (¬ 2 < z → root_cause_reasoning a = Except.ok "unknown"))))) := by
  constructor
  · intro window
    unfold analyze_metrics
    by_cases he : latencies window = []
    · rw [if_pos he]
      simp
    · rw [if_neg he]
      by_cases hz : (2 : ℝ) < zScore (latencies window)
      · simp [hz]
      · by_cases her : (3 / 20 : ℚ) < error_rate window
        · simp [hz, her]
        · simp [hz, her]
  · intro a er her
    constructor
    · intro h1
      simp [root_cause_reasoning, her, h1]
    · intro z hz h1
      constructor
      · intro h2
        simp [root_cause_reasoning, her, hz, h1, h2]
      · intro h2
        simp [root_cause_reasoning, her, hz, h1, h2]

/-- C8 witness: the three classifier branches at concrete verdicts. -/
theorem c8_witness :
    root_cause_reasoning ⟨true, some 0, some (1 / 5), some 100, some 100, some 0⟩
        = Except.ok "service_crash_or_high_error_rate"
    ∧ root_cause_reasoning ⟨true, some 3, some (1 / 10), none, none, none⟩
        = Except.ok "latency_spike"
    ∧ root_cause_reasoning ⟨false, some 0, some (1 / 10), none, none, none⟩
        = Except.ok "unknown" := by
  refine ⟨?_, ?_, ?_⟩
  · exact (c8_thresholds_and_priority.2
      ⟨true, some 0, some (1 / 5), some 100, some 100, some 0⟩ (1 / 5) rfl).1
      (by norm_num)
  · exact ((c8_thresholds_and_priority.2
      ⟨true, some 3, some (1 / 10), none, none, none⟩ (1 / 10) rfl).2 3 rfl
      (by norm_num)).1 (by norm_num)
  · exact ((c8_thresholds_and_priority.2
      ⟨false, some 0, some (1 / 10), none, none, none⟩ (1 / 10) rfl).2 0 rfl
      (by norm_num)).2 (by norm_num)

/-- A workflow step: id, type string and params dict (agent.py workflow.json
shape: steps = [ \x7bid, type, params\x7d, ... ]). -/
structure Step where
  id : String
  type : String
  params : List (String × PValue)
deriving DecidableEq

/-- The workflow document. -/
structure Workflow where
  steps : List Step
deriving DecidableEq

/-- Persistence side effects performed by the evolver, in order. -/
inductive Effect where
  | snapshot (reason : String)
  | save (wf : Workflow)
deriving DecidableEq

/-- Outcomes of the outbound operations of one cycle: the httpx call to
/recover, the verification probe, and the shutil.copyfile of the snapshot.
An ok value is the HTTP status code received; an error value is the text of
the raised exception. -/
structure World where
  recoverResp : Except String ℕ
  verifyResp : Except String ℕ
  snapshotResp : Except String Unit

/-- The dict returned by reflect_and_evolve. -/
structure EvolveResult where
  evolved : Bool
  note : Option String
deriving DecidableEq

/-- snapshot_workflow (agent.py lines 33-39): a bare shutil.copyfile with no
exception handler; a copy failure propagates to the caller. -/
def snapshot_workflow (world : World) (reason : String) : Except String (List Effect) :=
  match world.snapshotResp with
  | Except.ok _ => Except.ok [Effect.snapshot reason]
  | Except.error e => Except.error e

/-- save_workflow (agent.py lines 29-31), recorded as a save effect. -/
def save_workflow (wf : Workflow) : List Effect := [Effect.save wf]

/-- Python int() truncation toward zero on a rational. -/
def pyInt (q : ℚ) : ℤ := if 0 ≤ q then ⌊q⌋ else ⌈q⌉

/-- The success-path threshold update (agent.py line 106):
max(80, int(t * 0.95)), the float product modelled exactly. -/
def updateThreshold (t : ℤ) : ℤ := max 80 (pyInt ((t : ℚ) * (95 / 100)))

/-- Reading step["params"].get("latency_threshold_ms", 300) on line 105; a
string value would make the multiplication on line 106 raise TypeError. -/
def getThreshold (params : List (String × PValue)) : Except String ℤ :=
  match params.lookup "latency_threshold_ms" with
  | none => Except.ok 300
  | some (PValue.num n) => Except.ok n
  | some (PValue.str _) => Except.error "TypeError: unsupported operand"

/-- Python dict assignment params["latency_threshold_ms"] = v on the assoc
list: replace the first binding with the key, or append a new binding. -/
def setParam : List (String × PValue) → String → PValue → List (String × PValue)
  | [], k, v => [(k, v)]
  | (k0, v0) :: rest, k, v =>
    if k0 == k then (k, v) :: rest else (k0, v0) :: setParam rest k v

/-- One iteration of the success-path loop (agent.py lines 103-106). -/
def evolveStep (s : Step) : Except String Step :=
  if s.type == "anomaly_detection" then
    match getThreshold s.params with
    | Except.error e => Except.error e
    | Except.ok t =>
      Except.ok ⟨s.id, s.type,
        setParam s.params "latency_threshold_ms" (PValue.num (updateThreshold t))⟩
  else Except.ok s

/-- The success-path loop over all steps (agent.py lines 103-106); an
exception raised mid-loop propagates and discards the in-memory mutation. -/
def evolveSteps : List Step → Except String (List Step)
  | [] => Except.ok []
  | s :: rest =>
    match evolveStep s with
    | Except.error e => Except.error e
    | Except.ok s2 =>
      match evolveSteps rest with
      | Except.error e => Except.error e
      | Except.ok rest2 => Except.ok (s2 :: rest2)

/-- The notify_admin escalation step appended by the failure path
(agent.py lines 115-119). -/
def notifyStep : Step :=
  ⟨"notify_admin", "action_notify",
    [("channel", PValue.str "console"),
     ("message", PValue.str "AutoOps Evo: remediation failed, manual review required")]⟩

/-- reflect_and_evolve (agent.py lines 93-123). Success path: update every
anomaly_detection threshold, snapshot, save, return evolved true. Failure
path: if no notify_admin step exists, append it, snapshot, save, return
evolved true; otherwise fall through to evolved false with no effect. A
snapshot exception propagates (no handler in the source). -/
def reflect_and_evolve (world : World) (workflow : Workflow) (reason : String)
    (success : Bool) : Except String (Workflow × EvolveResult × List Effect) :=
  if success then
    match evolveSteps workflow.steps with
    | Except.error e => Except.error e
    | Except.ok steps2 =>
      match snapshot_workflow world "improved_after_success" with
      | Except.error e => Except.error e
      | Except.ok effs =>
        Except.ok (⟨steps2⟩, ⟨true, some "lowered latency threshold"⟩,
          effs ++ save_workflow ⟨steps2⟩)
  else
    if "notify_admin" ∈ workflow.steps.map Step.id then
      Except.ok (workflow, ⟨false, none⟩, [])
    else
      match snapshot_workflow world "added_notify_after_failure" with
      | Except.error e => Except.error e
      | Except.ok effs =>
        Except.ok (⟨workflow.steps ++ [notifyStep]⟩,
          ⟨true, some "added notify_admin step"⟩,
          effs ++ save_workflow ⟨workflow.steps ++ [notifyStep]⟩)

/-- Holds when the stored latency_threshold_ms value is not a string, so the
Python threshold update cannot raise TypeError on this step. -/
def thresholdOK (s : Step) : Bool :=
  match s.params.lookup "latency_threshold_ms" with
  | some (PValue.str _) => false
  | _ => true

/-- The numeric value of params.get("latency_threshold_ms", 300) in the
non-string cases. -/
def thresholdVal (params : List (String × PValue)) : ℤ :=
  match params.lookup "latency_threshold_ms" with
  | some (PValue.num n) => n
  | _ => 300

/-- The success-path step update as a total function, used to describe the
output of reflect_and_evolve on TypeError-free workflows. -/
def evolveTotal (s : Step) : Step :=
  if s.type == "anomaly_detection" then
    ⟨s.id, s.type,
      setParam s.params "latency_threshold_ms"
        (PValue.num (updateThreshold (thresholdVal s.params)))⟩
  else s

lemma evolveStep_ok (s : Step) (h : thresholdOK s = true) :
    evolveStep s = Except.ok (evolveTotal s) := by
  unfold evolveStep evolveTotal
  by_cases ht : s.type == "anomaly_detection"
  · rw [if_pos ht, if_pos ht]
    unfold thresholdOK at h
    unfold getThreshold thresholdVal
    cases hl : s.params.lookup "latency_threshold_ms" with
    | none => rfl
    | some v =>
      cases v with
      | num n => rfl
      | str v => rw [hl] at h; exact absurd h (by simp)
  · rw [if_neg ht, if_neg ht]

lemma evolveSteps_ok (steps : List Step) (h : ∀ s ∈ steps, thresholdOK s = true) :
    evolveSteps steps = Except.ok (steps.map evolveTotal) := by
  induction steps with
  | nil => rfl
  | cons s rest ih =>
    have hs : thresholdOK s = true := h s (List.mem_cons_self s rest)
    have hrest : ∀ x ∈ rest, thresholdOK x = true :=
      fun x hx => h x (List.mem_cons_of_mem s hx)
    unfold evolveSteps
    rw [evolveStep_ok s hs, ih hrest]
    rfl

/-- A world in which every outbound HTTP call answers 200 and the snapshot
copy succeeds. -/
def worldOK : World := ⟨Except.ok 200, Except.ok 200, Except.ok ()⟩

/-- A world in which the snapshot copy raises, all HTTP calls answering 200. -/
def worldSnapFail : World :=
  ⟨Except.ok 200, Except.ok 200, Except.error "copyfile: No such file or directory"⟩

/-- A demo workflow with an anomaly_detection step at threshold 300 and a
restart step, as in the workflow document described by the spec. -/
def wfDemo : Workflow :=
  ⟨[⟨"detect", "anomaly_detection", [("latency_threshold_ms", PValue.num 300)]⟩,
    ⟨"restart", "action_restart_service",
      [("method", PValue.str "http_restart"), ("check_endpoint", PValue.str "/")]⟩]⟩

/-- A workflow whose only anomaly_detection step has threshold 50, below the
floor of 80. -/
def wf50 : Workflow :=
  ⟨[⟨"detect", "anomaly_detection", [("latency_threshold_ms", PValue.num 50)]⟩]⟩

/-- wfDemo with the notify_admin escalation step already appended. -/
def wfNotify : Workflow := ⟨wfDemo.steps ++ [notifyStep]⟩

lemma updateThreshold_300 : updateThreshold 300 = 285 := by
  have h : ((300 : ℤ) : ℚ) * (95 / 100) = 285 := by norm_num
  rw [updateThreshold, pyInt, h, if_pos (by norm_num : (0 : ℚ) ≤ 285)]
  have h2 : ⌊(285 : ℚ)⌋ = 285 := by norm_num
  rw [h2, max_eq_right (by norm_num : (80 : ℤ) ≤ 285)]

lemma updateThreshold_50 : updateThreshold 50 = 80 := by
  have h : ((50 : ℤ) : ℚ) * (95 / 100) = 95 / 2 := by norm_num
  rw [updateThreshold, pyInt, h, if_pos (by norm_num : (0 : ℚ) ≤ 95 / 2)]
  have h2 : ⌊(95 / 2 : ℚ)⌋ = 47 := by norm_num
  rw [h2, max_eq_left (by norm_num : (47 : ℤ) ≤ 80)]

/-- C2: counterexample. On a successful cycle over the demo workflow, a
failing snapshot copy aborts the evolver: the exception propagates, so no
save effect occurs and no evolved-true result is returned, where the claim
promises the save still proceeds and the structured result is returned. -/
theorem c2_counterexample :
    reflect_and_evolve worldSnapFail wfDemo "latency_spike" true
      = Except.error "copyfile: No such file or directory" := by
  unfold reflect_and_evolve
  rw [evolveSteps_ok wfDemo.steps (by decide)]
  rfl

/-- C2 (amended): a failure of the pre-mutation snapshot copy is fatal to
the evolver run: on both mutating paths (success path, and failure path
with no notify_admin step yet) the exception propagates, the subsequent
save does not proceed, and no structured evolved result is returned. -/
theorem c2_amended (world : World) (wf : Workflow) (reason err : String)
    (hsnap : world.snapshotResp = Except.error err) :
    ((∀ s ∈ wf.steps, thresholdOK s = true) →
      reflect_and_evolve world wf reason true = Except.error err)
    ∧ ("notify_admin" ∉ wf.steps.map Step.id →
      reflect_and_evolve world wf reason false = Except.error err) := by
  constructor
  · intro h
    unfold reflect_and_evolve
    rw [evolveSteps_ok wf.steps h]
    simp [snapshot_workflow, hsnap]
  · intro hmem
    unfold reflect_and_evolve
    simp [hmem, snapshot_workflow, hsnap]

/-- C2 (amended) witness at the demo workflow and the failing-snapshot
world. -/
theorem c2_amended_witness :
    reflect_and_evolve worldSnapFail wfDemo "latency_spike" true
        = Except.error "copyfile: No such file or directory"
    ∧ reflect_and_evolve worldSnapFail wfDemo "latency_spike" false
        = Except.error "copyfile: No such file or directory" :=
  ⟨(c2_amended worldSnapFail wfDemo "latency_spike"
      "copyfile: No such file or directory" rfl).1 (by decide),
   (c2_amended worldSnapFail wfDemo "latency_spike"
      "copyfile: No such file or directory" rfl).2 (by decide)⟩

/-- C6: counterexample. A successful evolver run over a workflow whose
anomaly_detection threshold is 50 raises the threshold to 80: with a
starting value below 80 the sequence of thresholds is not monotonically
non-increasing, refuting the for-every-starting-value claim. -/
theorem c6_counterexample :
    reflect_and_evolve worldOK wf50 "latency_spike" true
      = Except.ok
          (⟨[⟨"detect", "anomaly_detection", [("latency_threshold_ms", PValue.num 80)]⟩]⟩,
            ⟨true, some "lowered latency threshold"⟩,
            [Effect.snapshot "improved_after_success",
             Effect.save
               ⟨[⟨"detect", "anomaly_detection", [("latency_threshold_ms", PValue.num 80)]⟩]⟩])
    ∧ ¬ ((80 : ℤ) ≤ 50) := by
  constructor
  · unfold reflect_and_evolve
    rw [evolveSteps_ok wf50.steps (by decide)]
    have hmap : wf50.steps.map evolveTotal
        = [⟨"detect", "anomaly_detection", [("latency_threshold_ms", PValue.num 80)]⟩] := by
      have : evolveTotal ⟨"detect", "anomaly_detection",
          [("latency_threshold_ms", PValue.num 50)]⟩
          = ⟨"detect", "anomaly_detection", [("latency_threshold_ms", PValue.num 80)]⟩ := by
        unfold evolveTotal
        rw [if_pos (by decide)]
        have hv : thresholdVal [("latency_threshold_ms", PValue.num 50)] = 50 := rfl
        rw [hv, updateThreshold_50]
        rfl
      simp [wf50, this]
    rw [hmap]
    rfl
  · norm_num

/-- C6 (amended): a successful evolver run replaces the threshold t of every
anomaly_detection step by max(80, int(t * 0.95)); this update never goes
below 80, and it is non-increasing for every starting threshold of at least
80 (hence across repeated successful cycles once the threshold is at or
above the floor) — but a starting threshold below 80 is raised to 80. -/
theorem c6_amended (world : World) (wf : Workflow) (reason : String)
    (hsnap : world.snapshotResp = Except.ok ())
    (h : ∀ s ∈ wf.steps, thresholdOK s = true) :
    reflect_and_evolve world wf reason true
      = Except.ok (⟨wf.steps.map evolveTotal⟩, ⟨true, some "lowered latency threshold"⟩,
          [Effect.snapshot "improved_after_success",
           Effect.save ⟨wf.steps.map evolveTotal⟩])
    ∧ (∀ t : ℤ, 80 ≤ updateThreshold t)
    ∧ (∀ t : ℤ, 80 ≤ t → updateThreshold t ≤ t) := by
  refine ⟨?_, fun t => le_max_left _ _, fun t ht => ?_⟩
  · unfold reflect_and_evolve
    rw [evolveSteps_ok wf.steps h]
    unfold snapshot_workflow
    rw [hsnap]
    rfl
  · have ht0 : (0 : ℚ) ≤ (t : ℚ) := by exact_mod_cast le_trans (by norm_num) ht
    have hq : (0 : ℚ) ≤ (t : ℚ) * (95 / 100) := by positivity
    rw [updateThreshold, pyInt, if_pos hq]
    refine max_le ht ?_
    have h1 : ((t : ℚ) * (95 / 100)) ≤ (t : ℚ) := by
      nlinarith
    have h2 : (⌊(t : ℚ) * (95 / 100)⌋ : ℚ) ≤ (t : ℚ) :=
      le_trans (Int.floor_le _) h1
    exact_mod_cast h2

/-- C6 (amended) witness at the demo workflow. -/
theorem c6_amended_witness :
    (reflect_and_evolve worldOK wfDemo "latency_spike" true
      = Except.ok (⟨wfDemo.steps.map evolveTotal⟩, ⟨true, some "lowered latency threshold"⟩,
          [Effect.snapshot "improved_after_success",
           Effect.save ⟨wfDemo.steps.map evolveTotal⟩])
     ∧ (∀ t : ℤ, 80 ≤ updateThreshold t)
     ∧ (∀ t : ℤ, 80 ≤ t → updateThreshold t ≤ t)) :=
  c6_amended worldOK wfDemo "latency_spike" rfl (by decide)

/-- C7: the failure path is idempotent. On the first failed cycle (no
notify_admin step present, snapshot copy succeeding) exactly the one
notify_admin step is appended, a snapshot effect precedes the save of the
extended workflow, and the result is evolved true; on every later failed
cycle with the step already present the workflow is returned unchanged,
no snapshot and no save effect occur, and the result is evolved false. -/
theorem c7_failure_idempotent (world : World) (wf : Workflow) (reason : String) :
    ("notify_admin" ∉ wf.steps.map Step.id →
      world.snapshotResp = Except.ok () →
      reflect_and_evolve world wf reason false
        = Except.ok (⟨wf.steps ++ [notifyStep]⟩, ⟨true, some "added notify_admin step"⟩,
            [Effect.snapshot "added_notify_after_failure",
             Effect.save ⟨wf.steps ++ [notifyStep]⟩]))
    ∧ ("notify_admin" ∈ wf.steps.map Step.id →
      reflect_and_evolve world wf reason false
        = Except.ok (wf, ⟨false, none⟩, [])) := by
  constructor
  · intro hmem hsnap
    unfold reflect_and_evolve
    rw [if_neg hmem]
    unfold snapshot_workflow
    rw [hsnap]
    rfl
  · intro hmem
    unfold reflect_and_evolve
    rw [if_pos hmem]
    rfl

/-- C7 witness: first failed cycle on the demo workflow, second failed cycle
on the extended workflow. -/
theorem c7_witness :
    reflect_and_evolve worldOK wfDemo "transport error" false
        = Except.ok (⟨wfDemo.steps ++ [notifyStep]⟩, ⟨true, some "added notify_admin step"⟩,
            [Effect.snapshot "added_notify_after_failure",
             Effect.save ⟨wfDemo.steps ++ [notifyStep]⟩])
    ∧ reflect_and_evolve worldOK wfNotify "transport error" false
        = Except.ok (wfNotify, ⟨false, none⟩, []) :=
  ⟨(c7_failure_idempotent worldOK wfDemo "transport error").1 (by decide) rfl,
   (c7_failure_idempotent worldOK wfNotify "transport error").2 (by decide)⟩

/-- The dict returned by execute_action. -/
structure ActionResult where
  ok : Bool
  detail : String
  status_code : Option ℕ
deriving DecidableEq

/-- execute_action (agent.py lines 66-81): for action_restart_service with
method http_restart (the default), any HTTP response is ok true and a
transport exception is ok false; any other method is a simulated restart,
ok true; any other action is ok false "unknown action". -/
def execute_action (world : World) (action : String)
    (params : List (String × PValue)) : ActionResult :=
  if action == "action_restart_service" then
    if (params.lookup "method").getD (PValue.str "http_restart")
        == PValue.str "http_restart" then
      match world.recoverResp with
      | Except.ok code => ⟨true, "called /recover", some code⟩
      | Except.error e => ⟨false, e, none⟩
    else ⟨true, "simulated restart (no docker)", none⟩
  else ⟨false, "unknown action", none⟩

/-- The dict returned by verify_recovery. -/
structure VerifyResult where
  ok : Bool
  status_code : Option ℕ
  error : Option String
deriving DecidableEq

/-- verify_recovery (agent.py lines 84-90): probe the check_endpoint named
in the given params; ok iff the status is exactly 200, transport failure is
ok false. The World abstracts the single probe of one cycle, so the params
argument (which only selects the URL) does not enter the outcome here. -/
def verify_recovery (world : World) (params : List (String × PValue)) : VerifyResult :=
  match world.verifyResp with
  | Except.ok code => ⟨code == 200, some code, none⟩
  | Except.error e => ⟨false, none, some e⟩

/-- The value returned by /run_cycle: either the no-anomaly marker or the
reasoning chain of a completed remediation. -/
inductive CycleResult where
  | no_anomaly (analysis : Analysis)
  | remediation (analysis : Analysis) (root_cause : String)
      (action_taken : Option String) (action_detail : ActionResult)
      (verification : VerifyResult) (evolve : EvolveResult)

/-- Discriminator for the two cycle outcomes. -/
def CycleResult.isRemediation : CycleResult → Bool
  | CycleResult.no_anomaly _ => false
  | CycleResult.remediation _ _ _ _ _ _ => true

/-- run_cycle (agent.py lines 146-183). Not anomalous: return the no-anomaly
marker, metrics untouched. Anomalous: classify, pick the first
action_restart_service step (execute_action ran inside the scan loop),
verify against the params of the last step (IndexError on an empty step
list), read action_detail.ok (AttributeError on None when no restart step
was found), evolve (its exceptions propagate), then clear the window and
both counters and return the reasoning chain. -/
noncomputable def run_cycle (world : World) (workflow : Workflow) (m : Metrics) :
    Except String (Metrics × CycleResult) :=
  if (analyze_metrics m.window).anomaly = false then
    Except.ok (m, CycleResult.no_anomaly (analyze_metrics m.window))
  else
    match root_cause_reasoning (analyze_metrics m.window) with
    | Except.error e => Except.error e
    | Except.ok rc =>
      match workflow.steps.getLast? with
      | none => Except.error "IndexError: list index out of range"
      | some lastStep =>
        match workflow.steps.find? (fun s => s.type == "action_restart_service") with
        | none => Except.error "AttributeError: NoneType has no attribute get"
        | some step =>
          match reflect_and_evolve world workflow rc
              ((execute_action world step.type step.params).ok
                && (verify_recovery world lastStep.params).ok) with
          | Except.error e => Except.error e
          | Except.ok (_, evolveRes, _) =>
            Except.ok (⟨[], 0, 0⟩,
              CycleResult.remediation (analyze_metrics m.window) rc (some step.id)
                (execute_action world step.type step.params)
                (verify_recovery world lastStep.params) evolveRes)

lemma analyze_nil : analyze_metrics [] = ⟨false, none, none, none, none, none⟩ := rfl

lemma rc_win5 :
    root_cause_reasoning ⟨true, some 0, some (1 / 5), some 100, some 100, some 0⟩
      = Except.ok "service_crash_or_high_error_rate" := by
  simp [root_cause_reasoning]
  norm_num

/-- shared helper: the classifier returns a label on every verdict built
from a nonempty latency series. -/
lemma root_cause_total_of_nonempty (window : List LogEvent)
    (h : latencies window ≠ []) :
    ∃ label, root_cause_reasoning (analyze_metrics window) = Except.ok label := by
  unfold analyze_metrics
  rw [if_neg h]
  by_cases h1 : (3 / 20 : ℚ) < error_rate window
  · exact ⟨"service_crash_or_high_error_rate", by simp [root_cause_reasoning, h1]⟩
  · by_cases h2 : (2 : ℝ) < zScore (latencies window)
    · exact ⟨"latency_spike", by simp [root_cause_reasoning, h1, h2]⟩
    · exact ⟨"unknown", by simp [root_cause_reasoning, h1, h2]⟩

lemma anomaly_true_nonempty (window : List LogEvent)
    (ha : (analyze_metrics window).anomaly = true) : latencies window ≠ [] := by
  intro he
  unfold analyze_metrics at ha
  rw [if_pos he] at ha
  simp at ha

/-- A nonempty workflow containing no action_restart_service step. -/
def wfNoRestart : Workflow :=
  ⟨[⟨"detect", "anomaly_detection", [("latency_threshold_ms", PValue.num 300)]⟩,
    ⟨"notify", "action_notify", [("channel", PValue.str "console")]⟩]⟩

/-- A metrics state whose window is the anomalous five-event window. -/
def metricsAnom : Metrics := ⟨win5, 1, 5⟩

/-- C4: counterexample. An anomalous cycle over a workflow without any
action_restart_service step dies with an uncaught AttributeError (reading
.get on the absent action result), an undifferentiated exception rather
than a structured result object branchable on ok or status fields. -/
theorem c4_counterexample :
    run_cycle worldOK wfNoRestart metricsAnom
      = Except.error "AttributeError: NoneType has no attribute get" := by
  unfold run_cycle
  rw [show metricsAnom.window = win5 from rfl, analyze_win5,
    if_neg (by simp), rc_win5]
  rfl

/-- C4 (amended): for every anomalous cycle over a workflow with no
action_restart_service step, run_cycle raises an exception to the caller
(an AttributeError, or an IndexError when the step list is empty) instead
of returning a structured result; no new metrics state and no evolve result
are produced, so neither the window nor the workflow is mutated. -/
theorem c4_amended (world : World) (wf : Workflow) (m : Metrics)
    (ha : (analyze_metrics m.window).anomaly = true)
    (hno : ∀ s ∈ wf.steps, s.type ≠ "action_restart_service") :
    ∃ e, run_cycle world wf m = Except.error e := by
  unfold run_cycle
  rw [if_neg (by simp [ha])]
  obtain ⟨rc, hrc⟩ :=
    root_cause_total_of_nonempty m.window (anomaly_true_nonempty m.window ha)
  rw [hrc]
  have hf : wf.steps.find? (fun s => s.type == "action_restart_service") = none :=
    List.find?_eq_none.2 (fun x hx => by simp [hno x hx])
  cases hlast : wf.steps.getLast? with
  | none => exact ⟨"IndexError: list index out of range", rfl⟩
  | some lastStep =>
    rw [hf]
    exact ⟨"AttributeError: NoneType has no attribute get", rfl⟩

/-- C4 (amended) witness at the anomalous window and restart-free workflow. -/
theorem c4_amended_witness :
    ∃ e, run_cycle worldOK wfNoRestart metricsAnom = Except.error e :=
  c4_amended worldOK wfNoRestart metricsAnom
    (by rw [show metricsAnom.window = win5 from rfl, analyze_win5])
    (by decide)

/-- C9: when a cycle completes with the no-anomaly marker the metrics state
is returned unchanged (window and both counters untouched), and when it
completes with a remediation result the window and both counters are
exactly 0; the result is a remediation exactly when the verdict was
anomalous. -/
theorem c9_window_reset (world : World) (wf : Workflow) (m m2 : Metrics)
    (res : CycleResult) (h : run_cycle world wf m = Except.ok (m2, res)) :
    (res.isRemediation = false → m2 = m)
    ∧ (res.isRemediation = true → m2 = ⟨[], 0, 0⟩)
    ∧ res.isRemediation = (analyze_metrics m.window).anomaly := by
  unfold run_cycle at h
  by_cases ha : (analyze_metrics m.window).anomaly = false
  · rw [if_pos ha] at h
    simp only [Except.ok.injEq, Prod.mk.injEq] at h
    obtain ⟨hm, hres⟩ := h
    subst hm
    subst hres
    exact ⟨fun _ => rfl, fun hr => by simp [CycleResult.isRemediation] at hr,
      by simp [CycleResult.isRemediation, ha]⟩
  · rw [if_neg ha] at h
    split at h
    · exact absurd h (by simp)
    · split at h
      · exact absurd h (by simp)
      · split at h
        · exact absurd h (by simp)
        · split at h
          · exact absurd h (by simp)
          · simp only [Except.ok.injEq, Prod.mk.injEq] at h
            obtain ⟨hm, hres⟩ := h
            subst hm
            subst hres
            refine ⟨fun hr => by simp [CycleResult.isRemediation] at hr,
              fun _ => rfl, ?_⟩
            simp only [CycleResult.isRemediation]
            cases hb : (analyze_metrics m.window).anomaly with
            | false => exact absurd hb ha
            | true => rfl

/-- C9 witness at a completed cycle over the empty window. -/
theorem c9_witness :
    ((CycleResult.no_anomaly (analyze_metrics [])).isRemediation = false
        → initMetrics = initMetrics)
    ∧ ((CycleResult.no_anomaly (analyze_metrics [])).isRemediation = true
        → initMetrics = ⟨[], 0, 0⟩)
    ∧ (CycleResult.no_anomaly (analyze_metrics [])).isRemediation
        = (analyze_metrics initMetrics.window).anomaly :=
  c9_window_reset worldOK wfDemo initMetrics initMetrics
    (CycleResult.no_anomaly (analyze_metrics [])) rfl

/-- C5: for every sequence of ingested events, starting from the empty
store, the window is exactly the FIFO suffix of the last 30 events (oldest
evicted first), so its length never exceeds 30; total_count counts every
event, and error_count counts exactly the events with severity error or
state crashed (severity drawn from the level enum). Because the claim holds
for every sequence, it holds after each intermediate ingest as well. -/
theorem c5_window_and_counters (events : List LogEvent)
    (h : ∀ e ∈ events, e.level = "info" ∨ e.level = "warning" ∨ e.level = "error") :
    (events.foldl ingest_log initMetrics).window = events.drop (events.length - 30)
    ∧ (events.foldl ingest_log initMetrics).window.length ≤ 30
    ∧ (events.foldl ingest_log initMetrics).total_count = events.length
    ∧ (events.foldl ingest_log initMetrics).error_count
        = events.countP (fun e => e.level == "error" || e.state == "crashed") := by
  have hw := foldl_ingest_window events initMetrics (by simp [initMetrics])
  rw [show initMetrics.window = [] from rfl, List.nil_append] at hw
  refine ⟨hw, ?_, ?_, ?_⟩
  · rw [hw, List.length_drop]
    omega
  · rw [foldl_ingest_total, show initMetrics.total_count = 0 from rfl]
    omega
  · rw [foldl_ingest_error, show initMetrics.error_count = 0 from rfl]
    have hcongr : ∀ e ∈ events,
        ingestError e = true ↔ (e.level == "error" || e.state == "crashed") = true := by
      intro e he
      rcases h e he with h1 | h1 | h1 <;> simp only [ingestError, h1] <;> exact Iff.rfl
    rw [List.countP_congr hcongr]
    omega

/-- C5 witness at a two-event sequence with one error event. -/
theorem c5_witness :
    (([evErrLat 120, evLat 100].foldl ingest_log initMetrics).window
        = [evErrLat 120, evLat 100].drop ([evErrLat 120, evLat 100].length - 30))
    ∧ (([evErrLat 120, evLat 100].foldl ingest_log initMetrics).window.length ≤ 30)
    ∧ (([evErrLat 120, evLat 100].foldl ingest_log initMetrics).total_count
        = [evErrLat 120, evLat 100].length)
    ∧ (([evErrLat 120, evLat 100].foldl ingest_log initMetrics).error_count
        = [evErrLat 120, evLat 100].countP
            (fun e => e.level == "error" || e.state == "crashed")) :=
  c5_window_and_counters [evErrLat 120, evLat 100] (by decide)

/-- An event at severity "ERROR" in upper case, state ok. -/
def evUpper : LogEvent :=
  ⟨"sim-service", 0, [("latency_ms", 100)], "synthetic", "ERROR", "ok"⟩

/-- C10: ingestion lower-cases the level before comparing with "error", so
an "ERROR" event increments error_count, while the detector compares the
level with "error" case-sensitively, so the same event contributes flag 0;
a lower-case "error" event is counted by both. Hence after ingesting just
the "ERROR" event, the stored error_count (1) differs from the error-flag
count the detector uses for its error rate (0) on the very same events. -/
theorem c10_level_case_mismatch :
    (∀ m : Metrics, (ingest_log m evUpper).error_count = m.error_count + 1)
    ∧ (∀ m : Metrics, (ingest_log m (evErrLat 100)).error_count = m.error_count + 1)
    ∧ error_flags [evUpper] = [0]
    ∧ error_flags [evErrLat 100] = [1]
    ∧ ([evUpper].foldl ingest_log initMetrics).error_count
        ≠ (error_flags [evUpper]).sum := by
  refine ⟨?_, ?_, rfl, rfl, ?_⟩
  · intro m
    rw [ingest_log_error, if_pos (by decide : ingestError evUpper = true)]
  · intro m
    rw [ingest_log_error, if_pos (by decide : ingestError (evErrLat 100) = true)]
  · have h1 : ([evUpper].foldl ingest_log initMetrics).error_count = 1 := by
      rw [List.foldl_cons, List.foldl_nil, ingest_log_error,
        if_pos (by decide : ingestError evUpper = true)]
      rfl
    rw [h1]
    decide
